import Mathlib

/-!
# Verification of the flashSurvey in-memory survey store

Shallow embedding of `survey/data.go` (package `survey`): the survey
registry with creation / in-place redefinition (`New`), deduplicated
voting (`Vote`), creator-gated reveal (`Uncover`), result rendering
(`Options.result`, `Survey.Result`), and the query helpers
(`HasVoted`, `GetQuestion`, `getSurveyCheckUser`).

Modelling conventions:
* Go `int` is modelled as `Int` (no arithmetic in the code comes close
  to overflow; counters only increment).
* Go `map[UserID]struct{}` (the voter dedup set) is a `List String`
  with map-style insert (no duplicate keys).
* The global `surveys` map guarded by the mutex is an explicit registry
  value `Reg := String → Option Survey` threaded through every
  operation; each Go top-level function takes and returns the registry.
* Go functions returning `error` return the registry paired with
  `Option SurveyError`; `none` is Go's `nil` error.  Each
  `SurveyError` constructor stands for one distinct message string in
  the source.
* `strings.TrimSpace` is modelled by `trimSpace` (strips the ASCII
  whitespace characters; Go additionally strips rarer Unicode spaces,
  which no claim exercises); Go `len` on a string (UTF-8 byte count)
  by `utf8Len`.
* `float64` percentages are modelled by exact rationals `ℚ`; the claims
  under verification only inspect the exact value 0 produced while a
  result is hidden.
* QR-code generation (`qrcode.Encode` + base64) is an external library
  call that always succeeds on these inputs; it is modelled as storing
  the encoded URL payload, which no verified claim inspects.
* `creationTime` and the sweeper are not modelled (no claim concerns
  them).
-/

namespace FlashSurvey

/-- Go `survey.Option`: an option label plus its integer vote counter. -/
structure SvOption where
  Title : String
  Votes : Int
  deriving DecidableEq, Repr

/-- Go `survey.Options`. -/
abbrev Options := List SvOption

/-- Go `survey.OptionResult`: rendered per-option result; `votes = -1`
is the sentinel used while results are hidden. -/
structure OptionResult where
  Title : String
  votes : Int
  percent : ℚ
  deriving DecidableEq, Repr

/-- Go `OptionResult.Votes()`: renders the vote count, `"-"` for the
hidden sentinel. -/
def OptionResult.Votes (o : OptionResult) : String :=
  if o.votes < 0 then "-" else toString o.votes

/-- Go `Options.result(sum, hidden)`: per-option results; when hidden
every entry carries the sentinel count `-1` and percent `0`. -/
def Options.result (o : Options) (sum : Int) (hidden : Bool) : List OptionResult :=
  let sum := if sum ≤ 0 then 1 else sum
  if hidden then
    o.map fun option => { Title := option.Title, votes := -1, percent := 0 }
  else
    o.map fun option =>
      { Title := option.Title, votes := option.Votes
        percent := (option.Votes : ℚ) / (sum : ℚ) * 100 }

/-- Go `survey.SurveyDef`: title, option labels, multiple-choice flag. -/
structure SurveyDef where
  Title : String
  Options : List String
  Multiple : Bool
  deriving DecidableEq, Repr

/-- Go `survey.Survey` (the fields the verified claims touch; `mutex`
and `creationTime` are omitted: locking is modelled by the operations
being atomic steps, and no claim concerns the sweeper). -/
structure Survey where
  surveyID : String
  userID : String
  qrCode : String
  options : Options
  definition : SurveyDef
  number : Int
  votesCounted : List String
  resultHidden : Bool
  deriving DecidableEq, Repr

/-- Go `survey.Result`: what `Survey.Result()` returns. -/
structure Result where
  Title : String
  QRCode : String
  Votes : Int
  Result : List OptionResult
  deriving DecidableEq, Repr

/-- Go `(s *Survey) Result()`. -/
def Survey.Result (s : Survey) : Result :=
  { Title := s.definition.Title
    QRCode := s.qrCode
    Votes := s.votesCounted.length
    Result := Options.result s.options s.votesCounted.length s.resultHidden }

/-- Go `survey.Question`: what `GetQuestion` returns. -/
structure Question where
  Number : Int
  SurveyID : String
  Definition : SurveyDef
  deriving DecidableEq, Repr

/-- Go `(s *Survey) Question()`. -/
def Survey.Question (s : Survey) : Question :=
  { Number := s.number, SurveyID := s.surveyID, Definition := s.definition }

/-- One constructor per distinct error message in `data.go`. -/
inductive SurveyError where
  /-- "Option %d ist leer!" (1-based index) -/
  | emptyOption (i : Nat)
  /-- "Option %d ist zu lang! Maximal 100 Zeichen erlaubt." -/
  | optionTooLong (i : Nat)
  /-- "could not create qr code: %w" -/
  | qrCodeError
  /-- "Es fehlt der Titel!" -/
  | emptyTitle
  /-- "Der Titel ist zu lang! Maximal 100 Zeichen erlaubt." -/
  | titleTooLong
  /-- "Es müssen mindestens zwei Optionen angegeben werden!" -/
  | tooFewOptions
  /-- "Diese Umfrage existiert bereits und wurde von einem anderen Benutzer erstellt!" -/
  | otherCreator
  /-- "Diese Umfrage existiert nicht!" -/
  | surveyNotFound
  /-- "Sie sind nicht der Ersteller dieser Umfrage!" -/
  | notCreator
  /-- "Es sind noch nicht genug Stimmen abgegeben worden!" -/
  | insufficientVotes
  /-- "Diese Wahl war schon abgeschlossen!" -/
  | staleRound
  /-- "Sie haben bereits abgestimmt!" -/
  | duplicateVote
  /-- "Ungültige Option!" -/
  | invalidOption
  deriving DecidableEq, Repr

/-- The global `surveys map[SurveyID]*Survey` registry. -/
def Reg := String → Option Survey

/-- The registry at process start: empty. -/
def emptyReg : Reg := fun _ => none

/-- Go `surveys[surveyId] = &survey`. -/
def updateReg (reg : Reg) (id : String) (s : Survey) : Reg :=
  fun k => if k = id then some s else reg k

/-- `maxStringLen = 100` from `data.go`. -/
def maxStringLen : Nat := 100

/-- ASCII whitespace, the common case of Go `unicode.IsSpace`. -/
def isSpaceChar (c : Char) : Bool :=
  c = ' ' ∨ c = '\t' ∨ c = '\n' ∨ c = '\r'

/-- Drop leading whitespace characters. -/
def dropSpaces : List Char → List Char
  | [] => []
  | c :: rest => if isSpaceChar c then dropSpaces rest else c :: rest

/-- Go `strings.TrimSpace`: strip whitespace from both ends. -/
def trimSpace (s : String) : String :=
  ⟨((dropSpaces s.data).reverse |> dropSpaces).reverse⟩

/-- Go `len` on a string: its UTF-8 byte count. -/
def utf8Len (s : String) : Nat := (s.data.map Char.utf8Size).sum

/-- The option-validation loop at the top of `New`: trims each label,
rejects empty or overlong (in bytes) labels with the 1-based index of
the offender, and builds the zeroed counters. -/
def checkOptions : List String → Nat → Except SurveyError Options
  | [], _ => .ok []
  | o :: rest, i =>
    let t := trimSpace o
    if t = "" then .error (.emptyOption (i + 1))
    else if maxStringLen < utf8Len t then .error (.optionTooLong (i + 1))
    else
      match checkOptions rest (i + 1) with
      | .error e => .error e
      | .ok tl => .ok ({ Title := t, Votes := 0 } :: tl)

/-- Go `survey.New(host, userid, surveyId, def)`: validates options and
title, then creates the survey or redefines it in place (number + 1)
when the same creator already owns the id.  QR encoding is modelled as
always succeeding with the URL payload. -/
def New (reg : Reg) (host : String) (userid : String) (surveyId : String)
    (d : SurveyDef) : Reg × Option SurveyError :=
  match checkOptions d.Options 0 with
  | .error e => (reg, some e)
  | .ok opt =>
    let url := host ++ "/vote?id=" ++ surveyId
    let title := trimSpace d.Title
    if title = "" then (reg, some .emptyTitle)
    else if maxStringLen < utf8Len title then (reg, some .titleTooLong)
    else if opt.length < 2 then (reg, some .tooFewOptions)
    else
      match reg surveyId with
      | some existingSurvey =>
        if existingSurvey.userID ≠ userid then (reg, some .otherCreator)
        else
          (updateReg reg surveyId
            { surveyID := surveyId, userID := userid, qrCode := url
              options := opt, definition := { d with Title := title }
              number := existingSurvey.number + 1
              votesCounted := [], resultHidden := true }, none)
      | none =>
        (updateReg reg surveyId
          { surveyID := surveyId, userID := userid, qrCode := url
            options := opt, definition := { d with Title := title }
            number := 0
            votesCounted := [], resultHidden := true }, none)

/-- Go `getSurveyToVote`: plain registry lookup. -/
def getSurveyToVote (reg : Reg) (surveyID : String) : Option Survey :=
  reg surveyID

/-- Go `getSurveyCheckUser`: lookup that also hides the survey when the
caller is not its creator (returns not-found in that case). -/
def getSurveyCheckUser (reg : Reg) (userId : String) (surveyID : String) :
    Option Survey :=
  match reg surveyID with
  | none => none
  | some survey => if survey.userID ≠ userId then none else some survey

/-- Go `survey.Uncover(userid, surveyID, debug)`: creator-gated reveal;
with debug off it refuses when the vote count is 1 or 2, otherwise it
clears `resultHidden`.  (The inner creator re-check is kept from the
source even though `getSurveyCheckUser` already filters.) -/
def Uncover (reg : Reg) (userid : String) (surveyID : String) (debug : Bool) :
    Reg × Option SurveyError :=
  match getSurveyCheckUser reg userid surveyID with
  | none => (reg, some .surveyNotFound)
  | some survey =>
    if survey.userID ≠ userid then (reg, some .notCreator)
    else
      let votes := survey.votesCounted.length
      if debug = false ∧ 0 < votes ∧ votes ≤ 2 then
        (reg, some .insufficientVotes)
      else
        (updateReg reg surveyID { survey with resultHidden := false }, none)

/-- `survey.options[opt].Votes++`: increment the counter at one index. -/
def incAt : Options → Nat → Options
  | [], _ => []
  | o :: rest, 0 => { o with Votes := o.Votes + 1 } :: rest
  | o :: rest, n + 1 => o :: incAt rest n

/-- The option-applying loop of `Vote`: applies the selected indices in
sequence, stopping at the first out-of-range one.  Returns the options
as mutated so far and whether every index was in range (`false` means
the loop aborted with "Ungültige Option!"). -/
def applyVotes : Options → List Int → Options × Bool
  | opts, [] => (opts, true)
  | opts, o :: rest =>
    if o < 0 ∨ (opts.length : Int) ≤ o then (opts, false)
    else applyVotes (incAt opts o.toNat) rest

/-- Map-style insert into the voter dedup set. -/
def insertVoter (v : String) (l : List String) : List String :=
  if v ∈ l then l else v :: l

/-- Go `survey.Vote(surveyID, voterId, option, number)`: validates
round and dedup, then applies the selected indices one at a time; the
first out-of-range index aborts, keeping the increments already made
(the survey is mutated in place through its pointer); on full success
the voter is recorded. -/
def Vote (reg : Reg) (surveyID : String) (voterId : String)
    (option : List Int) (number : Int) : Reg × Option SurveyError :=
  match getSurveyToVote reg surveyID with
  | none => (reg, some .surveyNotFound)
  | some survey =>
    if number ≠ survey.number then (reg, some .staleRound)
    else if voterId ∈ survey.votesCounted then (reg, some .duplicateVote)
    else
      match applyVotes survey.options option with
      | (opts, false) =>
        (updateReg reg surveyID { survey with options := opts },
          some .invalidOption)
      | (opts, true) =>
        (updateReg reg surveyID
          { survey with
            options := opts,
            votesCounted := insertVoter voterId survey.votesCounted }, none)

/-- Go `survey.HasVoted(surveyID, voterId)`. -/
def HasVoted (reg : Reg) (surveyID : String) (voterId : String) : Bool :=
  match getSurveyToVote reg surveyID with
  | none => false
  | some survey => voterId ∈ survey.votesCounted

/-- Go `survey.GetQuestion(surveyID)`. -/
def GetQuestion (reg : Reg) (surveyID : String) : Question :=
  match getSurveyToVote reg surveyID with
  | none =>
    { Number := 0, SurveyID := ""
      Definition := { Title := "Die Umfrage existiert nicht!", Options := [], Multiple := false } }
  | some survey => survey.Question

/-- Go `survey.GetResult(userId, surveyID)`. -/
def GetResult (reg : Reg) (userId : String) (surveyID : String) : Result :=
  match getSurveyCheckUser reg userId surveyID with
  | none =>
    { Title := "Die Umfrage existiert nicht!", QRCode := "", Votes := 0, Result := [] }
  | some survey => survey.Result

/-- The increments performed by `Vote`'s loop for a list of (in-range)
indices, in order. -/
def applyIncs (opts : Options) (l : List Int) : Options :=
  l.foldl (fun acc o => incAt acc o.toNat) opts

/-- Modelled from the spec: the per-survey revision counter and
one-shot notification gate of §3/§4.3 are absent from the source tree
(no `revision` field, gate type, or `WaitForModification` appears in
`survey/data.go`).  A `Notifier` carries the revision, the id of the
live (current) gate, and the ids of the gates that have fired so far,
in firing order. -/
structure Notifier where
  revision : Nat
  current : Nat
  fired : List Nat
  deriving DecidableEq, Repr

/-- Modelled from the spec: at creation the revision starts at 1 and a
fresh unsignaled gate (id 0) is installed. -/
def Notifier.init : Notifier :=
  { revision := 1, current := 0, fired := [] }

/-- Modelled from the spec: every revision-bumping mutation performs,
as one atomic state transition, exactly: signal the current gate,
install a fresh unsignaled gate, increment the revision. -/
def Notifier.mutate (n : Notifier) : Notifier :=
  { revision := n.revision + 1
    current := n.current + 1
    fired := n.fired ++ [n.current] }

/-- What a long-poll waiter is handed back. -/
inductive GateHandle where
  /-- An already-signaled gate: the caller is behind and returns at once. -/
  | alreadyFired
  /-- The survey's live gate, identified by its id. -/
  | live (g : Nat)
  deriving DecidableEq, Repr

/-- Modelled from the spec: `WaitForModification` returns an
already-signaled gate when the revision has moved past the caller's
known revision, and the live gate otherwise. -/
def Notifier.waitFor (n : Notifier) (knownRevision : Nat) : GateHandle :=
  if knownRevision < n.revision then .alreadyFired else .live n.current

/-- The notifier after `k` revision-bumping mutations from creation
(the only reachable states, since `mutate` is the sole transition). -/
def afterMutations (k : Nat) : Notifier :=
  Notifier.mutate^[k] Notifier.init

/-- Sample survey definition used by concrete witnesses. -/
def sampleDef : SurveyDef :=
  { Title := "Lunch", Options := ["Pizza", "Pasta"], Multiple := false }

/-- The survey `New` builds for `sampleDef` (creator "alice", id "sv1",
host "host"), before any votes. -/
def sampleSurvey : Survey :=
  { surveyID := "sv1", userID := "alice", qrCode := "host/vote?id=sv1"
    options := [{ Title := "Pizza", Votes := 0 }, { Title := "Pasta", Votes := 0 }]
    definition := sampleDef, number := 0, votesCounted := [], resultHidden := true }

/-- `sampleSurvey` after a single vote by "bob" for option 1. -/
def oneVoteSurvey : Survey :=
  { sampleSurvey with
    options := [{ Title := "Pizza", Votes := 0 }, { Title := "Pasta", Votes := 1 }]
    votesCounted := ["bob"] }

/-- `sampleSurvey` after three distinct voters (bob and dave chose
option 1, carol option 0). -/
def threeVoteSurvey : Survey :=
  { sampleSurvey with
    options := [{ Title := "Pizza", Votes := 1 }, { Title := "Pasta", Votes := 2 }]
    votesCounted := ["dave", "carol", "bob"] }

/-- Registry holding only `sampleSurvey`. -/
def reg1 : Reg := updateReg emptyReg "sv1" sampleSurvey

/-- Registry holding only `oneVoteSurvey`. -/
def regV1 : Reg := updateReg emptyReg "sv1" oneVoteSurvey

/-- Registry holding only `threeVoteSurvey`. -/
def regV3 : Reg := updateReg emptyReg "sv1" threeVoteSurvey

/-! Cross-checks: the literal sample states above are exactly what the
modelled operations produce. -/

example : (New emptyReg "host" "alice" "sv1" sampleDef).1 "sv1" = some sampleSurvey := by
  decide

example : (Vote reg1 "sv1" "bob" [1] 0).1 "sv1" = some oneVoteSurvey := by
  decide

example :
    (Vote (Vote (Vote reg1 "sv1" "bob" [1] 0).1 "sv1" "carol" [0] 0).1
      "sv1" "dave" [1] 0).1 "sv1" = some threeVoteSurvey := by
  decide

/-! ## Helper lemmas -/

/-- Incrementing one counter never changes the number of options. -/
theorem incAt_length (l : Options) (n : Nat) : (incAt l n).length = l.length := by
  induction l generalizing n with
  | nil => rfl
  | cons o rest ih =>
    cases n with
    | zero => rfl
    | succ m => simpa [incAt] using ih m

/-- The vote-applying loop on a list whose head indices are all in
range and which then hits an out-of-range index: it performs exactly
the increments of the valid prefix and reports failure. -/
theorem applyVotes_validPre (pre : List Int) (opts : Options) (bad : Int)
    (rest : List Int)
    (hpre : ∀ o ∈ pre, 0 ≤ o ∧ o < (opts.length : Int))
    (hbad : bad < 0 ∨ (opts.length : Int) ≤ bad) :
    applyVotes opts (pre ++ bad :: rest) = (applyIncs opts pre, false) := by
  induction pre generalizing opts with
  | nil =>
    simp only [List.nil_append, applyVotes, applyIncs, List.foldl_nil]
    exact if_pos hbad
  | cons p ps ih =>
    have hp := hpre p (List.mem_cons_self p ps)
    have hcond : ¬(p < 0 ∨ (opts.length : Int) ≤ p) := by
      push_neg
      exact ⟨hp.1, hp.2⟩
    simp only [List.cons_append, applyVotes, if_neg hcond, List.append_eq]
    have hpre' : ∀ o ∈ ps, 0 ≤ o ∧ o < ((incAt opts p.toNat).length : Int) := by
      intro o ho
      rw [incAt_length]
      exact hpre o (List.mem_cons_of_mem p ho)
    have hbad' : bad < 0 ∨ ((incAt opts p.toNat).length : Int) ≤ bad := by
      rw [incAt_length]
      exact hbad
    rw [ih (incAt opts p.toNat) hpre' hbad']
    simp [applyIncs]

/-- What `Vote` does when the round and dedup checks pass but the index
list has a valid prefix followed by an out-of-range index: the prefix
increments are kept, the voter is not recorded, and the call fails. -/
theorem vote_invalid_spec (reg : Reg) (sid voter : String) (pre : List Int)
    (bad : Int) (rest : List Int) (number : Int) (s : Survey)
    (h : reg sid = some s) (hnum : number = s.number)
    (hnv : voter ∉ s.votesCounted)
    (hpre : ∀ o ∈ pre, 0 ≤ o ∧ o < (s.options.length : Int))
    (hbad : bad < 0 ∨ (s.options.length : Int) ≤ bad) :
    Vote reg sid voter (pre ++ bad :: rest) number =
      (updateReg reg sid { s with options := applyIncs s.options pre },
        some .invalidOption) := by
  have hav := applyVotes_validPre pre s.options bad rest hpre hbad
  simp [Vote, getSurveyToVote, h, hnum, hnv, hav]

/-- Lookup after `updateReg` at the written key. -/
theorem updateReg_same (reg : Reg) (id : String) (s : Survey) :
    updateReg reg id s id = some s := by
  simp [updateReg]

/-- A valid option list passes `checkOptions`, producing the trimmed
labels with zeroed counters. -/
theorem checkOptions_valid (l : List String) (i : Nat)
    (h : ∀ o ∈ l, trimSpace o ≠ "" ∧ utf8Len (trimSpace o) ≤ maxStringLen) :
    checkOptions l i = .ok (l.map fun o => { Title := trimSpace o, Votes := 0 }) := by
  induction l generalizing i with
  | nil => rfl
  | cons o rest ih =>
    have ho := h o (List.mem_cons_self o rest)
    have hrest : ∀ x ∈ rest, trimSpace x ≠ "" ∧ utf8Len (trimSpace x) ≤ maxStringLen :=
      fun x hx => h x (List.mem_cons_of_mem o hx)
    simp [checkOptions, ho.1, Nat.not_lt.mpr ho.2, ih (i + 1) hrest]

/-- Closed form of the modelled notifier after `k` mutations. -/
theorem afterMutations_eq (k : Nat) :
    afterMutations k =
      { revision := k + 1, current := k, fired := List.range k } := by
  induction k with
  | zero => rfl
  | succ m ih =>
    rw [afterMutations, Function.iterate_succ_apply', ← afterMutations, ih]
    simp [Notifier.mutate, List.range_succ]

/-! ## Claim theorems -/

/-- C1: a `Vote` call whose supplied round differs from the survey's
current round fails with the stale-round error and leaves the registry
(hence every option counter and the voter dedup set) unchanged; and a
voter already recorded in the current round fails with the
duplicate-vote error, again leaving the registry unchanged. -/
theorem vote_stale_or_duplicate_leaves_state_unchanged
    (reg : Reg) (sid voter : String) (option : List Int) (number : Int)
    (s : Survey) (h : reg sid = some s) :
    (number ≠ s.number →
      Vote reg sid voter option number = (reg, some .staleRound)) ∧
    (number = s.number → voter ∈ s.votesCounted →
      Vote reg sid voter option number = (reg, some .duplicateVote)) := by
  constructor
  · intro hne
    simp [Vote, getSurveyToVote, h, hne]
  · intro heq hv
    simp [Vote, getSurveyToVote, h, heq, hv]

/-- Witness for C1 on a concrete registry: a stale round (5 ≠ 0) and a
duplicate voter ("bob" already counted) both fail without mutating. -/
theorem vote_stale_or_duplicate_witness :
    regV1 "sv1" = some oneVoteSurvey ∧
    Vote regV1 "sv1" "eve" [0] 5 = (regV1, some .staleRound) ∧
    Vote regV1 "sv1" "bob" [0] 0 = (regV1, some .duplicateVote) :=
  ⟨by decide,
    (vote_stale_or_duplicate_leaves_state_unchanged regV1 "sv1" "eve" [0] 5
      oneVoteSurvey (by decide)).1 (by decide),
    (vote_stale_or_duplicate_leaves_state_unchanged regV1 "sv1" "bob" [0] 0
      oneVoteSurvey (by decide)).2 (by decide) (by decide)⟩

/-- C2: a `Vote` call that passes the round and duplicate checks and
whose index list is a run of in-range indices followed by an
out-of-range one applies the in-range prefix in sequence and aborts
with the invalid-option error at the failing index; the survey keeps
the increments of the prefix (partial side effects). -/
theorem vote_invalid_option_partial_effects
    (reg : Reg) (sid voter : String) (pre : List Int) (bad : Int)
    (rest : List Int) (number : Int) (s : Survey)
    (h : reg sid = some s) (hnum : number = s.number)
    (hnv : voter ∉ s.votesCounted)
    (hpre : ∀ o ∈ pre, 0 ≤ o ∧ o < (s.options.length : Int))
    (hbad : bad < 0 ∨ (s.options.length : Int) ≤ bad) :
    Vote reg sid voter (pre ++ bad :: rest) number =
      (updateReg reg sid { s with options := applyIncs s.options pre },
        some .invalidOption) :=
  vote_invalid_spec reg sid voter pre bad rest number s h hnum hnv hpre hbad

/-- Witness for C2: on the fresh two-option survey, voting `[1, 9]`
fails with the invalid-option error yet leaves option 1 incremented. -/
theorem vote_invalid_option_partial_effects_witness :
    reg1 "sv1" = some sampleSurvey ∧
    Vote reg1 "sv1" "bob" ([1] ++ 9 :: []) 0 =
      (updateReg reg1 "sv1"
        { sampleSurvey with options := applyIncs sampleSurvey.options [1] },
        some .invalidOption) ∧
    applyIncs sampleSurvey.options [1] =
      [{ Title := "Pizza", Votes := 0 }, { Title := "Pasta", Votes := 1 }] :=
  ⟨by decide,
    vote_invalid_option_partial_effects reg1 "sv1" "bob" [1] 9 [] 0
      sampleSurvey (by decide) (by decide) (by decide) (by decide) (by decide),
    by decide⟩

/-- Counterexample to C3 as stated: on a fresh two-option survey,
voting `[0, 7]` fails with the invalid-option error and the voter is
*not* recorded in the dedup set (`HasVoted` stays false), contradicting
"the voter id is recorded ... even when the call subsequently fails
with InvalidOptionError". -/
theorem vote_marks_after_increments_cex :
    (Vote reg1 "sv1" "bob" [0, 7] 0).2 = some .invalidOption ∧
    HasVoted (Vote reg1 "sv1" "bob" [0, 7] 0).1 "sv1" "bob" = false := by
  constructor
  · decide
  · decide

/-- C3 (amended): `Vote` records the voter only after all option
increments succeed: a call that passes the round and duplicate checks
but fails with the invalid-option error leaves the voter unrecorded in
the dedup set for the current round. -/
theorem vote_invalid_option_voter_not_recorded
    (reg : Reg) (sid voter : String) (pre : List Int) (bad : Int)
    (rest : List Int) (number : Int) (s : Survey)
    (h : reg sid = some s) (hnum : number = s.number)
    (hnv : voter ∉ s.votesCounted)
    (hpre : ∀ o ∈ pre, 0 ≤ o ∧ o < (s.options.length : Int))
    (hbad : bad < 0 ∨ (s.options.length : Int) ≤ bad) :
    (Vote reg sid voter (pre ++ bad :: rest) number).2 = some .invalidOption ∧
    HasVoted (Vote reg sid voter (pre ++ bad :: rest) number).1 sid voter = false := by
  have hv := vote_invalid_spec reg sid voter pre bad rest number s h hnum hnv hpre hbad
  rw [hv]
  refine ⟨rfl, ?_⟩
  simp [HasVoted, getSurveyToVote, updateReg, hnv]

/-- Witness for C3 (amended) at a concrete input. -/
theorem vote_invalid_option_voter_not_recorded_witness :
    reg1 "sv1" = some sampleSurvey ∧
    (Vote reg1 "sv1" "carol" ([0] ++ 7 :: []) 0).2 = some .invalidOption ∧
    HasVoted (Vote reg1 "sv1" "carol" ([0] ++ 7 :: []) 0).1 "sv1" "carol" = false :=
  ⟨by decide,
    (vote_invalid_option_voter_not_recorded reg1 "sv1" "carol" [0] 7 [] 0
      sampleSurvey (by decide) (by decide) (by decide) (by decide) (by decide)).1,
    (vote_invalid_option_voter_not_recorded reg1 "sv1" "carol" [0] 7 [] 0
      sampleSurvey (by decide) (by decide) (by decide) (by decide) (by decide)).2⟩

/-- C4: `Uncover` called by the survey's creator fails with the
insufficient-votes error exactly when debug is off and the current vote
count is 1 or 2; with 0 or at least 3 votes, or with debug on, it
succeeds and clears `resultHidden`. -/
theorem uncover_by_creator_vote_threshold
    (reg : Reg) (sid uid : String) (debug : Bool) (s : Survey)
    (h : reg sid = some s) (hc : s.userID = uid) :
    ((debug = false ∧ (s.votesCounted.length = 1 ∨ s.votesCounted.length = 2)) →
      Uncover reg uid sid debug = (reg, some .insufficientVotes)) ∧
    ((debug = true ∨ s.votesCounted.length = 0 ∨ 3 ≤ s.votesCounted.length) →
      Uncover reg uid sid debug =
        (updateReg reg sid { s with resultHidden := false }, none)) := by
  have hgs : getSurveyCheckUser reg uid sid = some s := by
    simp [getSurveyCheckUser, h, hc]
  constructor
  · rintro ⟨hd, hv⟩
    have h1 : 0 < s.votesCounted.length := by omega
    have h2 : s.votesCounted.length ≤ 2 := by omega
    simp [Uncover, hgs, hc, hd, h1, h2]
  · intro hd
    have hcond : ¬(debug = false ∧ 0 < s.votesCounted.length ∧
        s.votesCounted.length ≤ 2) := by
      rcases hd with hd | hd | hd
      · simp [hd]
      · rintro ⟨-, h1, -⟩
        omega
      · rintro ⟨-, -, h2⟩
        omega
    simp [Uncover, hgs, hc, hcond]

/-- Witness for C4: with one vote the reveal is refused, with three it
succeeds and flips visibility, both for the creator "alice". -/
theorem uncover_by_creator_vote_threshold_witness :
    regV1 "sv1" = some oneVoteSurvey ∧
    Uncover regV1 "alice" "sv1" false = (regV1, some .insufficientVotes) ∧
    Uncover regV3 "alice" "sv1" false =
      (updateReg regV3 "sv1" { threeVoteSurvey with resultHidden := false }, none) :=
  ⟨by decide,
    (uncover_by_creator_vote_threshold regV1 "sv1" "alice" false oneVoteSurvey
      (by decide) (by decide)).1 (by decide),
    (uncover_by_creator_vote_threshold regV3 "sv1" "alice" false threeVoteSurvey
      (by decide) (by decide)).2 (by decide)⟩

/-- C5: redefining an existing survey via `New` with the same id and
creator increments the survey's round (`number`) by exactly 1, resets
every option counter to zero, and clears all prior voters, so every
voter subsequently reports not-voted. -/
theorem new_redefine_increments_round_clears_voters
    (reg : Reg) (host uid sid : String) (d : SurveyDef) (s : Survey)
    (h : reg sid = some s) (hc : s.userID = uid)
    (hopt : ∀ o ∈ d.Options, trimSpace o ≠ "" ∧ utf8Len (trimSpace o) ≤ maxStringLen)
    (htitle : trimSpace d.Title ≠ "" ∧ utf8Len (trimSpace d.Title) ≤ maxStringLen)
    (hlen : 2 ≤ d.Options.length) :
    ∃ s', New reg host uid sid d = (updateReg reg sid s', none) ∧
      s'.number = s.number + 1 ∧
      s'.votesCounted = [] ∧
      (∀ o ∈ s'.options, o.Votes = 0) ∧
      (∀ v, HasVoted (New reg host uid sid d).1 sid v = false) := by
  have hco := checkOptions_valid d.Options 0 hopt
  have hNew : New reg host uid sid d =
      (updateReg reg sid
        { surveyID := sid, userID := uid, qrCode := host ++ "/vote?id=" ++ sid
          options := d.Options.map fun o => { Title := trimSpace o, Votes := 0 }
          definition := { d with Title := trimSpace d.Title }
          number := s.number + 1, votesCounted := [], resultHidden := true },
        none) := by
    simp [New, hco, htitle.1, Nat.not_lt.mpr htitle.2, Nat.not_lt.mpr hlen, h, hc]
  refine ⟨_, hNew, rfl, rfl, ?_, ?_⟩
  · intro o ho
    rcases List.mem_map.mp ho with ⟨x, -, hx⟩
    rw [← hx]
  · intro v
    rw [hNew]
    simp [HasVoted, getSurveyToVote, updateReg]

/-- Witness for C5: redefining "sv1" (where "bob" is recorded) with the
same definition bumps the round to 1 and "bob" reports not-voted. -/
theorem new_redefine_witness :
    regV1 "sv1" = some oneVoteSurvey ∧
    (∃ s', New regV1 "host" "alice" "sv1" sampleDef = (updateReg regV1 "sv1" s', none) ∧
      s'.number = oneVoteSurvey.number + 1 ∧
      s'.votesCounted = [] ∧
      (∀ o ∈ s'.options, o.Votes = 0) ∧
      (∀ v, HasVoted (New regV1 "host" "alice" "sv1" sampleDef).1 "sv1" v = false)) :=
  ⟨by decide,
    new_redefine_increments_round_clears_voters regV1 "host" "alice" "sv1"
      sampleDef oneVoteSurvey (by decide) (by decide) (by decide) (by decide)
      (by decide)⟩

/-- Counterexample to C6 as stated: creating a fresh valid survey and
fetching it returns the identical definition but round (`Number`) 0,
not 1 — the round counter starts at 0 in the code. -/
theorem fresh_survey_round_zero_cex :
    (New emptyReg "host" "alice" "sv1" sampleDef).2 = none ∧
    (GetQuestion (New emptyReg "host" "alice" "sv1" sampleDef).1 "sv1").Definition =
      sampleDef ∧
    (GetQuestion (New emptyReg "host" "alice" "sv1" sampleDef).1 "sv1").Number ≠ 1 :=
  ⟨by decide, by decide, by decide⟩

/-- C6 (amended): for every valid question (trimmed title of 1–100
bytes, at least 2 options, each label at most 100 bytes after
trimming), creating a fresh survey with `New` and fetching it with
`GetQuestion` returns the identical title, option list and
multiple-choice flag, with round (`Number`) equal to 0. -/
theorem create_then_get_question_roundtrip
    (reg : Reg) (host uid sid : String) (d : SurveyDef)
    (h : reg sid = none)
    (hopt : ∀ o ∈ d.Options, trimSpace o ≠ "" ∧ utf8Len (trimSpace o) ≤ maxStringLen)
    (htrim : trimSpace d.Title = d.Title)
    (htitle : d.Title ≠ "" ∧ utf8Len d.Title ≤ maxStringLen)
    (hlen : 2 ≤ d.Options.length) :
    (New reg host uid sid d).2 = none ∧
    GetQuestion (New reg host uid sid d).1 sid =
      { Number := 0, SurveyID := sid, Definition := d } := by
  have hco := checkOptions_valid d.Options 0 hopt
  have hNew : New reg host uid sid d =
      (updateReg reg sid
        { surveyID := sid, userID := uid, qrCode := host ++ "/vote?id=" ++ sid
          options := d.Options.map fun o => { Title := trimSpace o, Votes := 0 }
          definition := { d with Title := trimSpace d.Title }
          number := 0, votesCounted := [], resultHidden := true },
        none) := by
    have h1 : trimSpace d.Title ≠ "" := by
      rw [htrim]
      exact htitle.1
    have h2 : ¬(maxStringLen < utf8Len (trimSpace d.Title)) := by
      rw [htrim]
      exact Nat.not_lt.mpr htitle.2
    simp [New, hco, h1, h2, Nat.not_lt.mpr hlen, h]
  have hdef : ({ d with Title := trimSpace d.Title } : SurveyDef) = d := by
    rw [htrim]
  rw [hNew]
  refine ⟨rfl, ?_⟩
  simp [GetQuestion, getSurveyToVote, updateReg, Survey.Question, hdef]

/-- Witness for C6 (amended) on a concrete fresh creation. -/
theorem create_then_get_question_roundtrip_witness :
    emptyReg "sv1" = none ∧
    (New emptyReg "host" "alice" "sv1" sampleDef).2 = none ∧
    GetQuestion (New emptyReg "host" "alice" "sv1" sampleDef).1 "sv1" =
      { Number := 0, SurveyID := "sv1", Definition := sampleDef } :=
  ⟨by decide,
    (create_then_get_question_roundtrip emptyReg "host" "alice" "sv1" sampleDef
      (by decide) (by decide) (by decide) (by decide) (by decide)).1,
    (create_then_get_question_roundtrip emptyReg "host" "alice" "sv1" sampleDef
      (by decide) (by decide) (by decide) (by decide) (by decide)).2⟩

/-- C7: while `resultHidden` is set, every option in the survey's
result carries the sentinel count `-1` (rendered as "-") and percent
0, whatever the real per-option counters hold; no real count is
reported. -/
theorem hidden_result_reports_sentinel (s : Survey) (h : s.resultHidden = true) :
    ∀ r ∈ s.Result.Result, r.votes = -1 ∧ r.percent = 0 ∧ r.Votes = "-" := by
  intro r hr
  simp only [Survey.Result, Options.result, h, if_true] at hr
  rcases List.mem_map.mp hr with ⟨o, -, ho⟩
  rw [← ho]
  refine ⟨rfl, rfl, ?_⟩
  simp [OptionResult.Votes]

/-- Witness for C7: the hidden one-vote survey (whose real counter for
"Pasta" is 1) reports only sentinels. -/
theorem hidden_result_reports_sentinel_witness :
    oneVoteSurvey.resultHidden = true ∧
    ∀ r ∈ oneVoteSurvey.Result.Result, r.votes = -1 ∧ r.percent = 0 ∧ r.Votes = "-" :=
  ⟨by decide, hidden_result_reports_sentinel oneVoteSurvey (by decide)⟩

/-- Counterexample to C8 as stated: "bob" is not the creator of the
existing survey "sv1", yet `Uncover` fails with the not-found error
("Diese Umfrage existiert nicht!"), not the ownership error —
`getSurveyCheckUser` conflates the two cases, so the ownership branch
inside `Uncover` is unreachable. -/
theorem uncover_non_creator_not_found_cex :
    (∃ s, reg1 "sv1" = some s ∧ s.userID ≠ "bob") ∧
    (Uncover reg1 "bob" "sv1" false).2 = some .surveyNotFound ∧
    (Uncover reg1 "bob" "sv1" false).2 ≠ some .notCreator :=
  ⟨⟨sampleSurvey, by decide, by decide⟩, by decide, by decide⟩

/-- C8 (amended): for every existing survey and every caller who is not
its creator, `Uncover` fails with the not-found error (the creator
check in `getSurveyCheckUser` reports a non-owner as not-found) and
leaves the registry — hence `resultHidden` — unchanged. -/
theorem uncover_non_creator_fails_not_found
    (reg : Reg) (sid uid : String) (debug : Bool) (s : Survey)
    (h : reg sid = some s) (hne : s.userID ≠ uid) :
    Uncover reg uid sid debug = (reg, some .surveyNotFound) := by
  simp [Uncover, getSurveyCheckUser, h, hne]

/-- Witness for C8 (amended) at a concrete non-creator call. -/
theorem uncover_non_creator_fails_not_found_witness :
    reg1 "sv1" = some sampleSurvey ∧
    sampleSurvey.userID ≠ "bob" ∧
    Uncover reg1 "bob" "sv1" false = (reg1, some .surveyNotFound) :=
  ⟨by decide, by decide,
    uncover_non_creator_fails_not_found reg1 "sv1" "bob" false sampleSurvey
      (by decide) (by decide)⟩

/-- C9: `Result().Votes` is the exact number of distinct voters
recorded for the current round, independent of `resultHidden`; hiding
suppresses only the per-option data, never the total. -/
theorem result_votes_counts_distinct_voters (s : Survey)
    (h : s.votesCounted.Nodup) :
    s.Result.Votes = s.votesCounted.toFinset.card ∧
    ({ s with resultHidden := true } : Survey).Result.Votes =
      s.votesCounted.toFinset.card ∧
    ({ s with resultHidden := false } : Survey).Result.Votes =
      s.votesCounted.toFinset.card := by
  have hc := List.toFinset_card_of_nodup h
  exact ⟨by simp [Survey.Result, hc], by simp [Survey.Result, hc],
    by simp [Survey.Result, hc]⟩

/-- Witness for C9 on the hidden three-vote survey. -/
theorem result_votes_counts_distinct_voters_witness :
    threeVoteSurvey.votesCounted.Nodup ∧
    threeVoteSurvey.Result.Votes = threeVoteSurvey.votesCounted.toFinset.card ∧
    threeVoteSurvey.votesCounted.toFinset.card = 3 :=
  ⟨by decide,
    (result_votes_counts_distinct_voters threeVoteSurvey (by decide)).1,
    by decide⟩

/-- C10 (modelled from the spec, §4.3): in every reachable notifier
state, the fired gates are exactly the ids below the live one, each
fired once (no gate fires twice) and never reused (every fired id stays
below the strictly increasing live id, so it is never current again);
one `mutate` step atomically signals the live gate, installs a fresh
unsignaled gate and bumps the revision; and a waiter is handed either
an already-fired gate or the live gate, which the next mutation fires —
never a gate that cannot fire. -/
theorem notifier_gate_one_shot (k : Nat) :
    ((afterMutations k).fired = List.range k ∧ (afterMutations k).fired.Nodup) ∧
    ((afterMutations k).current ∉ (afterMutations k).fired ∧
      ∀ g ∈ (afterMutations k).fired, g < (afterMutations k).current) ∧
    ((afterMutations k).mutate =
      { revision := (afterMutations k).revision + 1
        current := (afterMutations k).current + 1
        fired := (afterMutations k).fired ++ [(afterMutations k).current] }) ∧
    (∀ rev, (afterMutations k).waitFor rev = .alreadyFired ∨
      ((afterMutations k).waitFor rev = .live (afterMutations k).current ∧
        (afterMutations k).current ∈ ((afterMutations k).mutate).fired)) := by
  rw [afterMutations_eq]
  refine ⟨⟨rfl, List.nodup_range k⟩, ⟨by simp, by simp⟩, rfl, ?_⟩
  intro rev
  by_cases hr : rev < k + 1
  · left
    simp [Notifier.waitFor, hr]
  · right
    constructor
    · simp [Notifier.waitFor, hr]
    · simp [Notifier.mutate]

end FlashSurvey
